import Mathlib

/-!
Shallow embedding of src/watch.rs from the shade_runner repository: a
live-reload shader watcher.  Paths are modelled as lists of components,
the external services (the notify filesystem monitor and the compile /
reflect API of the surrounding crate) as a record of functions, the mpsc
result channel as an explicit queue together with a receiver-alive flag,
and the background thread loop as a step function driven by an input
stream of shutdown-signal polls and debounced-event receptions.  Real
time (the 1-second recv_timeout) is modelled discretely: one loop
iteration corresponds to at most one event-wait of bound
recvTimeoutSecs.
-/

namespace ShadeRunner

/-- A filesystem path, as its list of components (PathBuf). -/
abbrev Path := List String

/-- PathBuf::pop: remove the last component (truncate to the parent).
For a one-component path this yields the empty path, and the empty path
stays empty (Rust: pop returns false and leaves the path unchanged). -/
def Path.pop (p : Path) : Path := p.dropLast

/-- Opaque compiled-shader artifact (external type CompiledShaders);
the watcher treats it as data, so a numeric stand-in suffices. -/
abbrev CompiledShaders := Nat

/-- Opaque reflected entry-point metadata (external type Entry). -/
abbrev Entry := Nat

/-- The error type, restricted to what watch.rs produces: FileWatch
wraps a notify error; CompileError stands for the external compile or
reflect errors that flow through load / parse (the crate-wide error
type has further variants that never reach this module). -/
inductive Error where
  | FileWatch (e : Nat)
  | CompileError (e : Nat)
deriving DecidableEq, Repr

/-- The Message struct sent over the result channel. -/
structure Message where
  shaders : CompiledShaders
  entry : Entry
deriving DecidableEq, Repr

/-- State of the mpsc result channel: the queue of not-yet-received
messages, and whether the receiving half is still alive. -/
structure Chan where
  queue : List (Except Error Message)
  receiverAlive : Bool

/-- mpsc Sender::send: enqueue when a receiver is alive, otherwise
return the value as a SendError (modelled as Unit).  Never blocks. -/
def Chan.send (ch : Chan) (m : Except Error Message) : Chan × Except Unit Unit :=
  if ch.receiverAlive then
    ({ ch with queue := ch.queue ++ [m] }, Except.ok ())
  else
    (ch, Except.error ())

/-- External collaborators of watch.rs: the notify watcher constructor,
the directory-watch call, and the compile / reflect API (crate::load,
crate::parse, crate::load_compute, crate::parse_compute). -/
structure Env where
  watcherNew : Nat → Except Nat Unit
  watch : Path → Except Nat Unit
  load : Path → Path → Except Error CompiledShaders
  parse : CompiledShaders → Except Error Entry
  loadCompute : Path → Except Error CompiledShaders
  parseCompute : CompiledShaders → Except Error Entry

/-- GraphicsLoader: vertex and fragment paths (the tx sender is modelled
separately, as the Chan state threaded through reload). -/
structure GraphicsLoader where
  vertex : Path
  fragment : Path
deriving DecidableEq, Repr

/-- ComputeLoader: the single compute path. -/
structure ComputeLoader where
  compute : Path
deriving DecidableEq, Repr

/-- The Loader enum dispatching between the two reload strategies. -/
inductive Loader where
  | Graphics (g : GraphicsLoader)
  | Compute (c : ComputeLoader)
deriving DecidableEq, Repr

/-- The value a graphics reload sends on the channel: Err(e) when load
fails, otherwise parse(shaders).map into Message (so a parse error is
sent as that error and the artifact is discarded). -/
def GraphicsLoader.reloadResult (env : Env) (l : GraphicsLoader) : Except Error Message :=
  match env.load l.vertex l.fragment with
  | Except.ok shaders =>
      (env.parse shaders).map (fun entry => { shaders := shaders, entry := entry })
  | Except.error e => Except.error e

/-- GraphicsLoader::reload: match on crate::load; on Ok run crate::parse
and send the mapped message, on Err send the error.  The send result is
discarded with .ok() (modelled by Except.toOption), so a dead receiver
is ignored and nothing panics. -/
def GraphicsLoader.reload (env : Env) (l : GraphicsLoader) (ch : Chan) : Chan × Option Unit :=
  match env.load l.vertex l.fragment with
  | Except.ok shaders =>
      let entry := env.parse shaders
      let msg := entry.map (fun entry => ({ shaders := shaders, entry := entry } : Message))
      let r := ch.send msg
      (r.1, r.2.toOption)
  | Except.error e =>
      let r := ch.send (Except.error e)
      (r.1, r.2.toOption)

/-- The value a compute reload sends on the channel. -/
def ComputeLoader.reloadResult (env : Env) (l : ComputeLoader) : Except Error Message :=
  match env.loadCompute l.compute with
  | Except.ok shaders =>
      (env.parseCompute shaders).map (fun entry => { shaders := shaders, entry := entry })
  | Except.error e => Except.error e

/-- ComputeLoader::reload, the identical shape using load_compute and
parse_compute. -/
def ComputeLoader.reload (env : Env) (l : ComputeLoader) (ch : Chan) : Chan × Option Unit :=
  match env.loadCompute l.compute with
  | Except.ok shaders =>
      let entry := env.parseCompute shaders
      let msg := entry.map (fun entry => ({ shaders := shaders, entry := entry } : Message))
      let r := ch.send msg
      (r.1, r.2.toOption)
  | Except.error e =>
      let r := ch.send (Except.error e)
      (r.1, r.2.toOption)

/-- Loader::reload dispatch. -/
def Loader.reload (env : Env) (l : Loader) (ch : Chan) : Chan × Option Unit :=
  match l with
  | Loader.Graphics g => g.reload env ch
  | Loader.Compute c => c.reload env ch

/-- The value Loader::reload sends, by dispatch. -/
def Loader.reloadResult (env : Env) (l : Loader) : Except Error Message :=
  match l with
  | Loader.Graphics g => g.reloadResult env
  | Loader.Compute c => c.reloadResult env

/-- GraphicsLoader::create: fresh mpsc channel (receiver alive, empty
queue), build the loader, perform one synchronous reload, return loader
and receiver. -/
def GraphicsLoader.create (env : Env) (vertex fragment : Path) : GraphicsLoader × Chan :=
  let loader : GraphicsLoader := { vertex := vertex, fragment := fragment }
  let ch0 : Chan := { queue := [], receiverAlive := true }
  (loader, (loader.reload env ch0).1)

/-- ComputeLoader::create, same shape for the compute path. -/
def ComputeLoader.create (env : Env) (compute : Path) : ComputeLoader × Chan :=
  let loader : ComputeLoader := { compute := compute }
  let ch0 : Chan := { queue := [], receiverAlive := true }
  (loader, (loader.reload env ch0).1)

/-- The SrcPath enum passed to create_watch. -/
inductive SrcPath where
  | Graphics (vertex fragment : Path)
  | Compute (compute : Path)
deriving DecidableEq, Repr

/-- Observable construction-time actions of create_watch, in program
order: attempt Watcher::new, attempt watcher.watch on a directory,
perform the initial reload, spawn the background thread. -/
inductive Action where
  | watcherNew
  | watchDir (p : Path)
  | initialReload
  | spawnThread
deriving DecidableEq, Repr

/-- A successfully constructed watch session: the loader moved into the
background thread, and the result-channel receiver returned to the
caller (its queue already holds the initial reload result). -/
structure Session where
  loader : Loader
  chan : Chan

/-- create_watch: make the channels, create the watcher (map_err
Error::FileWatch), pop each source path to its parent directory and
watch it (the second graphics directory only when distinct), run the
loader constructor (which performs the synchronous initial reload), and
finally spawn the background thread.  Returns the ordered list of
performed actions together with the outcome; the ? operator aborts with
the actions performed so far. -/
def create_watch (env : Env) (src_path : SrcPath) (frequency : Nat) :
    List Action × Except Error Session :=
  match env.watcherNew frequency with
  | Except.error e => ([Action.watcherNew], Except.error (Error.FileWatch e))
  | Except.ok _ =>
    match src_path with
    | SrcPath.Graphics vert_path frag_path =>
      let vp := Path.pop vert_path
      let fp := Path.pop frag_path
      match env.watch vp with
      | Except.error e =>
          ([Action.watcherNew, Action.watchDir vp], Except.error (Error.FileWatch e))
      | Except.ok _ =>
        if vp ≠ fp then
          match env.watch fp with
          | Except.error e =>
              ([Action.watcherNew, Action.watchDir vp, Action.watchDir fp],
               Except.error (Error.FileWatch e))
          | Except.ok _ =>
              let lc := GraphicsLoader.create env vert_path frag_path
              ([Action.watcherNew, Action.watchDir vp, Action.watchDir fp,
                Action.initialReload, Action.spawnThread],
               Except.ok { loader := Loader.Graphics lc.1, chan := lc.2 })
        else
          let lc := GraphicsLoader.create env vert_path frag_path
          ([Action.watcherNew, Action.watchDir vp,
            Action.initialReload, Action.spawnThread],
           Except.ok { loader := Loader.Graphics lc.1, chan := lc.2 })
    | SrcPath.Compute compute_path =>
      let cp := Path.pop compute_path
      match env.watch cp with
      | Except.error e =>
          ([Action.watcherNew, Action.watchDir cp], Except.error (Error.FileWatch e))
      | Except.ok _ =>
          let lc := ComputeLoader.create env compute_path
          ([Action.watcherNew, Action.watchDir cp,
            Action.initialReload, Action.spawnThread],
           Except.ok { loader := Loader.Compute lc.1, chan := lc.2 })

/-- Watch::create: build the Graphics SrcPath from the two paths and
delegate to create_watch (the Watch struct then merely stores the
handler and the receiver, here the Session). -/
def Watch.create (env : Env) (vertex fragment : Path) (frequency : Nat) :
    List Action × Except Error Session :=
  create_watch env (SrcPath.Graphics vertex fragment) frequency

/-- Watch::create_compute: the Compute analogue. -/
def Watch.create_compute (env : Env) (compute : Path) (frequency : Nat) :
    List Action × Except Error Session :=
  create_watch env (SrcPath.Compute compute) frequency

/-- The debounced events the notify watcher can deliver. -/
inductive DebouncedEvent where
  | NoticeWrite (p : Path)
  | NoticeRemove (p : Path)
  | Create (p : Path)
  | Write (p : Path)
  | Chmod (p : Path)
  | Remove (p : Path)
  | Rename (src dst : Path)
  | Rescan
  | Error (e : Nat) (p : Option Path)
deriving DecidableEq, Repr

/-- Outcome of notify_rx.recv_timeout: some event, or none for a
timeout / disconnection error. -/
abbrev RecvOutcome := Option DebouncedEvent

/-- The pattern the watch loop matches: Ok(Create(_)) or Ok(Write(_)). -/
def isCreateOrWrite : RecvOutcome → Bool
  | some (DebouncedEvent.Create _) => true
  | some (DebouncedEvent.Write _) => true
  | _ => false

/-- The recv_timeout bound of the loop, Duration::from_secs(1). -/
def recvTimeoutSecs : Nat := 1

/-- Input consumed by one loop iteration: whether the shutdown channel
holds a signal when thread_rx.try_recv() runs, and what the bounded
event wait then yields. -/
structure LoopInput where
  shutdownPending : Bool
  recv : RecvOutcome
deriving DecidableEq, Repr

/-- State of the background thread: the result channel it sends into,
and whether it has exited its loop. -/
structure ThreadState where
  chan : Chan
  stopped : Bool

/-- What one loop iteration did. -/
inductive LoopEffect where
  | exited
  | reloaded
  | ignored
  | alreadyStopped
deriving DecidableEq, Repr

/-- One iteration of the background thread loop: a stopped thread does
nothing; otherwise poll the shutdown channel and break on a signal;
otherwise wait on the event stream and invoke loader.reload exactly on
a Create or Write event, ignoring every other outcome. -/
def loopStep (env : Env) (l : Loader) (inp : LoopInput) (st : ThreadState) :
    ThreadState × LoopEffect :=
  if st.stopped then (st, LoopEffect.alreadyStopped)
  else if inp.shutdownPending then ({ st with stopped := true }, LoopEffect.exited)
  else if isCreateOrWrite inp.recv then
    ({ st with chan := (l.reload env st.chan).1 }, LoopEffect.reloaded)
  else (st, LoopEffect.ignored)

/-- Run the loop over a whole input stream. -/
def runLoop (env : Env) (l : Loader) (st : ThreadState) : List LoopInput → ThreadState
  | [] => st
  | inp :: rest => runLoop env l (loopStep env l inp st).1 rest

/-- Marker for a thread panic during teardown (never produced: both
fallible teardown steps discard their errors with .ok()). -/
inductive Crash where
  | crashed
deriving DecidableEq, Repr

/-- Outcome of Handler::drop. -/
structure DropResult where
  signalDelivered : Bool
  joinCompleted : Bool
deriving DecidableEq, Repr

/-- Handler::drop: send () on the shutdown channel discarding the send
result with .ok(), then, when the join handle is present, join the
thread discarding the join result with .ok().  Both discards are
modelled with Except.toOption, so drop always completes normally. -/
def Handler.drop (handle : Option Unit) (sendResult : Except Unit Unit)
    (joinResult : Except Crash Unit) : Except Crash DropResult :=
  let s := sendResult.toOption
  match handle with
  | some _ =>
      let j := joinResult.toOption
      Except.ok { signalDelivered := s.isSome, joinCompleted := j.isSome }
  | none => Except.ok { signalDelivered := s.isSome, joinCompleted := false }

/-- Boolean success test for Except. -/
def exceptOk {ε α : Type} : Except ε α → Bool
  | Except.ok _ => true
  | Except.error _ => false

/-- The directories create_watch actually registered, read off the
action trace. -/
def watchDirs (tr : List Action) : List Path :=
  tr.filterMap (fun a =>
    match a with
    | Action.watchDir p => some p
    | _ => none)

/-- The spec's Directory Watch Set: each source file's parent
directory, deduplicated when the two graphics parents coincide.
Modelled from the spec to compare against the trace of create_watch. -/
def directoryWatchSet (sp : SrcPath) : List Path :=
  match sp with
  | SrcPath.Graphics v f =>
      if Path.pop v = Path.pop f then [Path.pop v] else [Path.pop v, Path.pop f]
  | SrcPath.Compute c => [Path.pop c]

/-- The source file paths carried by a SrcPath. -/
def srcPathList (sp : SrcPath) : List Path :=
  match sp with
  | SrcPath.Graphics v f => [v, f]
  | SrcPath.Compute c => [c]

/-- The path spelling of the current directory, for contrast with the
empty path produced by popping a bare filename. -/
def currentDirPath : Path := ["."]

/-- Sending with a live receiver enqueues the message. -/
theorem Chan.send_alive (ch : Chan) (m : Except Error Message)
    (h : ch.receiverAlive = true) :
    ch.send m = ({ ch with queue := ch.queue ++ [m] }, Except.ok ()) := by
  simp [Chan.send, h]

/-- Sending with a dead receiver returns the channel unchanged and a
send error. -/
theorem Chan.send_dead (ch : Chan) (m : Except Error Message)
    (h : ch.receiverAlive = false) :
    ch.send m = (ch, Except.error ()) := by
  simp [Chan.send, h]

theorem graphics_reload_alive (env : Env) (l : GraphicsLoader) (ch : Chan)
    (h : ch.receiverAlive = true) :
    l.reload env ch = ({ ch with queue := ch.queue ++ [l.reloadResult env] }, some ()) := by
  unfold GraphicsLoader.reload GraphicsLoader.reloadResult
  cases hl : env.load l.vertex l.fragment <;> simp [Chan.send, h, Except.toOption]

theorem graphics_reload_dead (env : Env) (l : GraphicsLoader) (ch : Chan)
    (h : ch.receiverAlive = false) :
    l.reload env ch = (ch, none) := by
  unfold GraphicsLoader.reload
  cases hl : env.load l.vertex l.fragment <;> simp [Chan.send, h, Except.toOption]

theorem compute_reload_alive (env : Env) (l : ComputeLoader) (ch : Chan)
    (h : ch.receiverAlive = true) :
    l.reload env ch = ({ ch with queue := ch.queue ++ [l.reloadResult env] }, some ()) := by
  unfold ComputeLoader.reload ComputeLoader.reloadResult
  cases hl : env.loadCompute l.compute <;> simp [Chan.send, h, Except.toOption]

theorem compute_reload_dead (env : Env) (l : ComputeLoader) (ch : Chan)
    (h : ch.receiverAlive = false) :
    l.reload env ch = (ch, none) := by
  unfold ComputeLoader.reload
  cases hl : env.loadCompute l.compute <;> simp [Chan.send, h, Except.toOption]

theorem loader_reload_alive (env : Env) (l : Loader) (ch : Chan)
    (h : ch.receiverAlive = true) :
    l.reload env ch = ({ ch with queue := ch.queue ++ [l.reloadResult env] }, some ()) := by
  cases l with
  | Graphics g => simp [Loader.reload, Loader.reloadResult, graphics_reload_alive env g ch h]
  | Compute c => simp [Loader.reload, Loader.reloadResult, compute_reload_alive env c ch h]

theorem loader_reload_dead (env : Env) (l : Loader) (ch : Chan)
    (h : ch.receiverAlive = false) :
    l.reload env ch = (ch, none) := by
  cases l with
  | Graphics g => simp [Loader.reload, graphics_reload_dead env g ch h]
  | Compute c => simp [Loader.reload, compute_reload_dead env c ch h]

/-- One reload extends the queue by a (possibly empty) suffix. -/
theorem loader_reload_queue_append (env : Env) (l : Loader) (ch : Chan) :
    ∃ t, ((l.reload env ch).1).queue = ch.queue ++ t := by
  cases h : ch.receiverAlive with
  | true => exact ⟨[l.reloadResult env], by rw [loader_reload_alive env l ch h]⟩
  | false => exact ⟨[], by rw [loader_reload_dead env l ch h]; simp⟩

theorem create_watch_wNew_err (env : Env) (sp : SrcPath) (q : Nat) (e : Nat)
    (h : env.watcherNew q = Except.error e) :
    create_watch env sp q = ([Action.watcherNew], Except.error (Error.FileWatch e)) := by
  simp [create_watch, h]

theorem create_watch_graphics_vp_err (env : Env) (v f : Path) (q : Nat) (e : Nat)
    (hw : exceptOk (env.watcherNew q) = true)
    (h : env.watch (Path.pop v) = Except.error e) :
    create_watch env (SrcPath.Graphics v f) q =
      ([Action.watcherNew, Action.watchDir (Path.pop v)],
       Except.error (Error.FileWatch e)) := by
  cases hwn : env.watcherNew q with
  | error e2 => rw [hwn] at hw; simp [exceptOk] at hw
  | ok u => simp [create_watch, hwn, h]

theorem create_watch_graphics_fp_err (env : Env) (v f : Path) (q : Nat) (e : Nat)
    (hw : exceptOk (env.watcherNew q) = true)
    (hv : exceptOk (env.watch (Path.pop v)) = true)
    (hne : Path.pop v ≠ Path.pop f)
    (h : env.watch (Path.pop f) = Except.error e) :
    create_watch env (SrcPath.Graphics v f) q =
      ([Action.watcherNew, Action.watchDir (Path.pop v), Action.watchDir (Path.pop f)],
       Except.error (Error.FileWatch e)) := by
  cases hwn : env.watcherNew q with
  | error e2 => rw [hwn] at hw; simp [exceptOk] at hw
  | ok u =>
    cases hv2 : env.watch (Path.pop v) with
    | error e3 => rw [hv2] at hv; simp [exceptOk] at hv
    | ok u2 => simp [create_watch, hwn, hv2, hne, h]

theorem create_watch_graphics_ok_two (env : Env) (v f : Path) (q : Nat)
    (hw : exceptOk (env.watcherNew q) = true)
    (hv : exceptOk (env.watch (Path.pop v)) = true)
    (hne : Path.pop v ≠ Path.pop f)
    (hf : exceptOk (env.watch (Path.pop f)) = true) :
    create_watch env (SrcPath.Graphics v f) q =
      ([Action.watcherNew, Action.watchDir (Path.pop v), Action.watchDir (Path.pop f),
        Action.initialReload, Action.spawnThread],
       Except.ok { loader := Loader.Graphics { vertex := v, fragment := f },
                   chan := (GraphicsLoader.reload env { vertex := v, fragment := f }
                             { queue := [], receiverAlive := true }).1 }) := by
  cases hwn : env.watcherNew q with
  | error e2 => rw [hwn] at hw; simp [exceptOk] at hw
  | ok u =>
    cases hv2 : env.watch (Path.pop v) with
    | error e3 => rw [hv2] at hv; simp [exceptOk] at hv
    | ok u2 =>
      cases hf2 : env.watch (Path.pop f) with
      | error e4 => rw [hf2] at hf; simp [exceptOk] at hf
      | ok u3 => simp [create_watch, hwn, hv2, hne, hf2, GraphicsLoader.create]

theorem create_watch_graphics_ok_one (env : Env) (v f : Path) (q : Nat)
    (hw : exceptOk (env.watcherNew q) = true)
    (hv : exceptOk (env.watch (Path.pop v)) = true)
    (heq : Path.pop v = Path.pop f) :
    create_watch env (SrcPath.Graphics v f) q =
      ([Action.watcherNew, Action.watchDir (Path.pop v),
        Action.initialReload, Action.spawnThread],
       Except.ok { loader := Loader.Graphics { vertex := v, fragment := f },
                   chan := (GraphicsLoader.reload env { vertex := v, fragment := f }
                             { queue := [], receiverAlive := true }).1 }) := by
  cases hwn : env.watcherNew q with
  | error e2 => rw [hwn] at hw; simp [exceptOk] at hw
  | ok u =>
    cases hv2 : env.watch (Path.pop v) with
    | error e3 => rw [hv2] at hv; simp [exceptOk] at hv
    | ok u2 =>
      rw [heq] at hv2
      simp [create_watch, hwn, hv2, heq, GraphicsLoader.create]

theorem create_watch_compute_cp_err (env : Env) (c : Path) (q : Nat) (e : Nat)
    (hw : exceptOk (env.watcherNew q) = true)
    (h : env.watch (Path.pop c) = Except.error e) :
    create_watch env (SrcPath.Compute c) q =
      ([Action.watcherNew, Action.watchDir (Path.pop c)],
       Except.error (Error.FileWatch e)) := by
  cases hwn : env.watcherNew q with
  | error e2 => rw [hwn] at hw; simp [exceptOk] at hw
  | ok u => simp [create_watch, hwn, h]

theorem create_watch_compute_ok (env : Env) (c : Path) (q : Nat)
    (hw : exceptOk (env.watcherNew q) = true)
    (hc : exceptOk (env.watch (Path.pop c)) = true) :
    create_watch env (SrcPath.Compute c) q =
      ([Action.watcherNew, Action.watchDir (Path.pop c),
        Action.initialReload, Action.spawnThread],
       Except.ok { loader := Loader.Compute { compute := c },
                   chan := (ComputeLoader.reload env { compute := c }
                             { queue := [], receiverAlive := true }).1 }) := by
  cases hwn : env.watcherNew q with
  | error e2 => rw [hwn] at hw; simp [exceptOk] at hw
  | ok u =>
    cases hc2 : env.watch (Path.pop c) with
    | error e3 => rw [hc2] at hc; simp [exceptOk] at hc
    | ok u2 => simp [create_watch, hwn, hc2, ComputeLoader.create]

/-- The loader create_watch builds for a given SrcPath. -/
def loaderOf (sp : SrcPath) : Loader :=
  match sp with
  | SrcPath.Graphics v f => Loader.Graphics { vertex := v, fragment := f }
  | SrcPath.Compute c => Loader.Compute { compute := c }

/-- Inversion of a successful create_watch: the watcher was created,
every directory of the Directory Watch Set was watched, the trace is
the watcher creation, the watch installations, then the initial reload,
then the thread spawn, and the returned session carries the loader of
the SrcPath and a live channel whose queue holds exactly the initial
reload result. -/
theorem create_watch_ok_inv (env : Env) (sp : SrcPath) (q : Nat)
    (tr : List Action) (s : Session)
    (h : create_watch env sp q = (tr, Except.ok s)) :
    exceptOk (env.watcherNew q) = true
    ∧ (∀ d ∈ directoryWatchSet sp, exceptOk (env.watch d) = true)
    ∧ tr = [Action.watcherNew]
        ++ (directoryWatchSet sp).map Action.watchDir
        ++ [Action.initialReload, Action.spawnThread]
    ∧ s.loader = loaderOf sp
    ∧ s.chan.queue = [Loader.reloadResult env (loaderOf sp)]
    ∧ s.chan.receiverAlive = true := by
  cases hwn : env.watcherNew q with
  | error e =>
    rw [create_watch_wNew_err env sp q e hwn] at h
    simp at h
  | ok u =>
    have hw : exceptOk (env.watcherNew q) = true := by rw [hwn]; rfl
    cases sp with
    | Graphics v f =>
      cases hv : env.watch (Path.pop v) with
      | error e =>
        rw [create_watch_graphics_vp_err env v f q e hw hv] at h
        simp at h
      | ok u2 =>
        have hv2 : exceptOk (env.watch (Path.pop v)) = true := by rw [hv]; rfl
        by_cases heq : Path.pop v = Path.pop f
        · rw [create_watch_graphics_ok_one env v f q hw hv2 heq] at h
          simp only [Prod.mk.injEq, Except.ok.injEq] at h
          obtain ⟨htr, hs⟩ := h
          subst hs
          rw [graphics_reload_alive env _ _ rfl]
          refine ⟨rfl, ?_, ?_, ?_, ?_, ?_⟩
          · intro d hd
            simp [directoryWatchSet, heq] at hd
            rw [hd, ← heq]
            exact hv2
          · rw [← htr]; simp [directoryWatchSet, heq]
          · simp [loaderOf]
          · simp [loaderOf, Loader.reloadResult]
          · rfl
        · cases hf : env.watch (Path.pop f) with
          | error e =>
            rw [create_watch_graphics_fp_err env v f q e hw hv2 heq hf] at h
            simp at h
          | ok u3 =>
            have hf2 : exceptOk (env.watch (Path.pop f)) = true := by rw [hf]; rfl
            rw [create_watch_graphics_ok_two env v f q hw hv2 heq hf2] at h
            simp only [Prod.mk.injEq, Except.ok.injEq] at h
            obtain ⟨htr, hs⟩ := h
            subst hs
            rw [graphics_reload_alive env _ _ rfl]
            refine ⟨rfl, ?_, ?_, ?_, ?_, ?_⟩
            · intro d hd
              simp [directoryWatchSet, heq] at hd
              rcases hd with hd | hd
              · rw [hd]; exact hv2
              · rw [hd]; exact hf2
            · rw [← htr]; simp [directoryWatchSet, heq]
            · simp [loaderOf]
            · simp [loaderOf, Loader.reloadResult]
            · rfl
    | Compute c =>
      cases hc : env.watch (Path.pop c) with
      | error e =>
        rw [create_watch_compute_cp_err env c q e hw hc] at h
        simp at h
      | ok u2 =>
        have hc2 : exceptOk (env.watch (Path.pop c)) = true := by rw [hc]; rfl
        rw [create_watch_compute_ok env c q hw hc2] at h
        simp only [Prod.mk.injEq, Except.ok.injEq] at h
        obtain ⟨htr, hs⟩ := h
        subst hs
        rw [compute_reload_alive env _ _ rfl]
        refine ⟨rfl, ?_, ?_, ?_, ?_, ?_⟩
        · intro d hd
          simp [directoryWatchSet] at hd
          rw [hd]; exact hc2
        · rw [← htr]; simp [directoryWatchSet]
        · simp [loaderOf]
        · simp [loaderOf, Loader.reloadResult]
        · rfl

/-- One loop iteration only ever appends to the result queue. -/
theorem loopStep_queue_append (env : Env) (l : Loader) (inp : LoopInput) (st : ThreadState) :
    ∃ t, ((loopStep env l inp st).1).chan.queue = st.chan.queue ++ t := by
  unfold loopStep
  by_cases h1 : st.stopped
  · exact ⟨[], by simp [h1]⟩
  · by_cases h2 : inp.shutdownPending
    · exact ⟨[], by simp [h1, h2]⟩
    · by_cases h3 : isCreateOrWrite inp.recv
      · obtain ⟨t, ht⟩ := loader_reload_queue_append env l st.chan
        exact ⟨t, by simp [h1, h2, h3, ht]⟩
      · exact ⟨[], by simp [h1, h2, h3]⟩

/-- Any run of the loop only ever appends to the result queue. -/
theorem runLoop_queue_append (env : Env) (l : Loader) (inputs : List LoopInput) :
    ∀ st : ThreadState, ∃ t, (runLoop env l st inputs).chan.queue = st.chan.queue ++ t := by
  induction inputs with
  | nil => exact fun st => ⟨[], by simp [runLoop]⟩
  | cons inp rest ih =>
    intro st
    obtain ⟨t1, h1⟩ := loopStep_queue_append env l inp st
    obtain ⟨t2, h2⟩ := ih (loopStep env l inp st).1
    refine ⟨t1 ++ t2, ?_⟩
    show (runLoop env l (loopStep env l inp st).1 rest).chan.queue = _
    rw [h2, h1, List.append_assoc]

/-- A stopped thread stays stopped and does nothing more. -/
theorem runLoop_stopped (env : Env) (l : Loader) (inputs : List LoopInput)
    (st : ThreadState) (h : st.stopped = true) : runLoop env l st inputs = st := by
  induction inputs with
  | nil => rfl
  | cons inp rest ih => simpa [runLoop, loopStep, h] using ih

/-- Environment in which every external call succeeds, used to witness
the claims at concrete inputs. -/
def envOk : Env where
  watcherNew := fun _ => Except.ok ()
  watch := fun _ => Except.ok ()
  load := fun _ _ => Except.ok 7
  parse := fun sh => Except.ok (sh + 1)
  loadCompute := fun _ => Except.ok 5
  parseCompute := fun sh => Except.ok (sh + 2)

/-- C1: for every successful construction (create and create_compute
both reduce to create_watch on their SrcPath), the construction trace
performs the initial reload strictly before spawning the background
thread, the result channel already holds exactly the initial reload
result when construction returns, and after any subsequent run of the
background loop that initial result is still the first message on the
channel, ahead of every event-triggered result. -/
theorem initial_reload_first (env : Env) (sp : SrcPath) (q : Nat)
    (tr : List Action) (s : Session)
    (h : create_watch env sp q = (tr, Except.ok s)) (inputs : List LoopInput) :
    (∃ pre, tr = pre ++ [Action.initialReload, Action.spawnThread]
        ∧ Action.initialReload ∉ pre ∧ Action.spawnThread ∉ pre)
    ∧ s.chan.queue = [Loader.reloadResult env (loaderOf sp)]
    ∧ (runLoop env s.loader { chan := s.chan, stopped := false } inputs).chan.queue.head?
        = some (Loader.reloadResult env (loaderOf sp)) := by
  obtain ⟨hw, hwd, htr, hld, hq, hra⟩ := create_watch_ok_inv env sp q tr s h
  refine ⟨?_, hq, ?_⟩
  · refine ⟨[Action.watcherNew] ++ (directoryWatchSet sp).map Action.watchDir,
      by rw [htr], ?_, ?_⟩
    · intro hmem
      simp [List.mem_append, List.mem_map] at hmem
    · intro hmem
      simp [List.mem_append, List.mem_map] at hmem
  · obtain ⟨t, ht⟩ :=
      runLoop_queue_append env s.loader inputs { chan := s.chan, stopped := false }
    rw [ht]
    simp [hq]

/-- Witness for C1 at a concrete all-success environment: a graphics
pair sharing the parent directory a. -/
theorem initial_reload_first_witness :
    (∃ pre, ([Action.watcherNew, Action.watchDir ["a"],
              Action.initialReload, Action.spawnThread] : List Action)
          = pre ++ [Action.initialReload, Action.spawnThread]
        ∧ Action.initialReload ∉ pre ∧ Action.spawnThread ∉ pre)
    ∧ (({ loader := Loader.Graphics { vertex := ["a", "v.vert"], fragment := ["a", "f.frag"] },
          chan := { queue := [Except.ok { shaders := 7, entry := 8 }],
                    receiverAlive := true } } : Session)).chan.queue
        = [Loader.reloadResult envOk
            (loaderOf (SrcPath.Graphics ["a", "v.vert"] ["a", "f.frag"]))]
    ∧ (runLoop envOk
        (Loader.Graphics { vertex := ["a", "v.vert"], fragment := ["a", "f.frag"] })
        { chan := { queue := [Except.ok { shaders := 7, entry := 8 }], receiverAlive := true },
          stopped := false } []).chan.queue.head?
        = some (Loader.reloadResult envOk
            (loaderOf (SrcPath.Graphics ["a", "v.vert"] ["a", "f.frag"]))) :=
  initial_reload_first envOk (SrcPath.Graphics ["a", "v.vert"] ["a", "f.frag"]) 1
    [Action.watcherNew, Action.watchDir ["a"], Action.initialReload, Action.spawnThread]
    { loader := Loader.Graphics { vertex := ["a", "v.vert"], fragment := ["a", "f.frag"] },
      chan := { queue := [Except.ok { shaders := 7, entry := 8 }], receiverAlive := true } }
    rfl []

/-- C2: per graphics reload invocation with a live receiver, the
external load is called; when it fails that error is sent directly;
when it succeeds, parse is called and on joint success
Ok(Message(shaders, entry)) is sent, while a parse failure sends that
error with the artifact discarded.  Exactly one Reload Result is
enqueued per invocation, and the Compute variant has the identical
shape using load_compute and parse_compute. -/
theorem reload_semantics (env : Env) (g : GraphicsLoader) (c : ComputeLoader)
    (ch : Chan) (halive : ch.receiverAlive = true) :
    (∀ e, env.load g.vertex g.fragment = Except.error e →
        ((g.reload env ch).1).queue = ch.queue ++ [Except.error e])
  ∧ (∀ sh en, env.load g.vertex g.fragment = Except.ok sh → env.parse sh = Except.ok en →
        ((g.reload env ch).1).queue = ch.queue ++ [Except.ok { shaders := sh, entry := en }])
  ∧ (∀ sh e, env.load g.vertex g.fragment = Except.ok sh → env.parse sh = Except.error e →
        ((g.reload env ch).1).queue = ch.queue ++ [Except.error e])
  ∧ ((g.reload env ch).1).queue.length = ch.queue.length + 1
  ∧ (∀ e, env.loadCompute c.compute = Except.error e →
        ((c.reload env ch).1).queue = ch.queue ++ [Except.error e])
  ∧ (∀ sh en, env.loadCompute c.compute = Except.ok sh → env.parseCompute sh = Except.ok en →
        ((c.reload env ch).1).queue = ch.queue ++ [Except.ok { shaders := sh, entry := en }])
  ∧ (∀ sh e, env.loadCompute c.compute = Except.ok sh → env.parseCompute sh = Except.error e →
        ((c.reload env ch).1).queue = ch.queue ++ [Except.error e])
  ∧ ((c.reload env ch).1).queue.length = ch.queue.length + 1 := by
  have hg := graphics_reload_alive env g ch halive
  have hc := compute_reload_alive env c ch halive
  refine ⟨?_, ?_, ?_, ?_, ?_, ?_, ?_, ?_⟩
  · intro e h1
    rw [hg]; simp [GraphicsLoader.reloadResult, h1]
  · intro sh en h1 h2
    rw [hg]; simp [GraphicsLoader.reloadResult, h1, h2, Except.map]
  · intro sh e h1 h2
    rw [hg]; simp [GraphicsLoader.reloadResult, h1, h2, Except.map]
  · rw [hg]; simp
  · intro e h1
    rw [hc]; simp [ComputeLoader.reloadResult, h1]
  · intro sh en h1 h2
    rw [hc]; simp [ComputeLoader.reloadResult, h1, h2, Except.map]
  · intro sh e h1 h2
    rw [hc]; simp [ComputeLoader.reloadResult, h1, h2, Except.map]
  · rw [hc]; simp

/-- Witness for C2 on an empty live channel in the all-success
environment. -/
theorem reload_semantics_witness :
    (∀ e, envOk.load ["v"] ["f"] = Except.error e →
        ((GraphicsLoader.reload envOk { vertex := ["v"], fragment := ["f"] }
            { queue := [], receiverAlive := true }).1).queue = [Except.error e])
  ∧ (∀ sh en, envOk.load ["v"] ["f"] = Except.ok sh → envOk.parse sh = Except.ok en →
        ((GraphicsLoader.reload envOk { vertex := ["v"], fragment := ["f"] }
            { queue := [], receiverAlive := true }).1).queue
          = [Except.ok { shaders := sh, entry := en }])
  ∧ (∀ sh e, envOk.load ["v"] ["f"] = Except.ok sh → envOk.parse sh = Except.error e →
        ((GraphicsLoader.reload envOk { vertex := ["v"], fragment := ["f"] }
            { queue := [], receiverAlive := true }).1).queue = [Except.error e])
  ∧ ((GraphicsLoader.reload envOk { vertex := ["v"], fragment := ["f"] }
        { queue := [], receiverAlive := true }).1).queue.length = 1
  ∧ (∀ e, envOk.loadCompute ["c"] = Except.error e →
        ((ComputeLoader.reload envOk { compute := ["c"] }
            { queue := [], receiverAlive := true }).1).queue = [Except.error e])
  ∧ (∀ sh en, envOk.loadCompute ["c"] = Except.ok sh → envOk.parseCompute sh = Except.ok en →
        ((ComputeLoader.reload envOk { compute := ["c"] }
            { queue := [], receiverAlive := true }).1).queue
          = [Except.ok { shaders := sh, entry := en }])
  ∧ (∀ sh e, envOk.loadCompute ["c"] = Except.ok sh → envOk.parseCompute sh = Except.error e →
        ((ComputeLoader.reload envOk { compute := ["c"] }
            { queue := [], receiverAlive := true }).1).queue = [Except.error e])
  ∧ ((ComputeLoader.reload envOk { compute := ["c"] }
        { queue := [], receiverAlive := true }).1).queue.length = 1 :=
  reload_semantics envOk { vertex := ["v"], fragment := ["f"] } { compute := ["c"] }
    { queue := [], receiverAlive := true } rfl

/-- C7: when the receiving side of the result channel has been dropped,
a reload invocation returns with the channel unchanged: the failed send
is converted by .ok() into a silently discarded None (no panic), and as
a total function the step never blocks. -/
theorem reload_send_failure_ignored (env : Env) (l : Loader) (ch : Chan)
    (h : ch.receiverAlive = false) :
    l.reload env ch = (ch, none) ∧ ((l.reload env ch).1).queue = ch.queue :=
  ⟨loader_reload_dead env l ch h, by rw [loader_reload_dead env l ch h]⟩

/-- Witness for C7: a dead-receiver channel already holding one
message. -/
theorem reload_send_failure_ignored_witness :
    Loader.reload envOk (Loader.Graphics { vertex := ["v"], fragment := ["f"] })
        { queue := [Except.error (Error.CompileError 3)], receiverAlive := false }
      = ({ queue := [Except.error (Error.CompileError 3)], receiverAlive := false }, none)
    ∧ ((Loader.reload envOk (Loader.Graphics { vertex := ["v"], fragment := ["f"] })
        { queue := [Except.error (Error.CompileError 3)], receiverAlive := false }).1).queue
      = [Except.error (Error.CompileError 3)] :=
  reload_send_failure_ignored envOk (Loader.Graphics { vertex := ["v"], fragment := ["f"] })
    { queue := [Except.error (Error.CompileError 3)], receiverAlive := false } rfl

/-- C4: in a loop iteration that reaches the event wait (thread not
stopped, no shutdown signal pending), the reload strategy is invoked
exactly when the wait yields a Create or Write event; every other
outcome (notice events, chmod, remove, rename, rescan, error,
timeout / no event) leaves the state unchanged and the loop continues
with no Reload Result produced. -/
theorem event_filter (env : Env) (l : Loader) (inp : LoopInput) (st : ThreadState)
    (hstop : st.stopped = false) (hsig : inp.shutdownPending = false) :
    ((loopStep env l inp st).2 = LoopEffect.reloaded ↔ isCreateOrWrite inp.recv = true)
  ∧ (isCreateOrWrite inp.recv = false → loopStep env l inp st = (st, LoopEffect.ignored))
  ∧ (∀ p, isCreateOrWrite (some (DebouncedEvent.Create p)) = true)
  ∧ (∀ p, isCreateOrWrite (some (DebouncedEvent.Write p)) = true)
  ∧ (∀ p, isCreateOrWrite (some (DebouncedEvent.NoticeWrite p)) = false)
  ∧ (∀ p, isCreateOrWrite (some (DebouncedEvent.NoticeRemove p)) = false)
  ∧ (∀ p, isCreateOrWrite (some (DebouncedEvent.Chmod p)) = false)
  ∧ (∀ p, isCreateOrWrite (some (DebouncedEvent.Remove p)) = false)
  ∧ (∀ p p2, isCreateOrWrite (some (DebouncedEvent.Rename p p2)) = false)
  ∧ isCreateOrWrite (some DebouncedEvent.Rescan) = false
  ∧ (∀ e p, isCreateOrWrite (some (DebouncedEvent.Error e p)) = false)
  ∧ isCreateOrWrite none = false := by
  refine ⟨?_, ?_, fun p => rfl, fun p => rfl, fun p => rfl, fun p => rfl, fun p => rfl,
    fun p => rfl, fun p p2 => rfl, rfl, fun e p => rfl, rfl⟩
  · unfold loopStep
    by_cases h3 : isCreateOrWrite inp.recv <;> simp [hstop, hsig, h3]
  · intro h3
    unfold loopStep
    simp [hstop, hsig, h3]

/-- Witness for C4 at a Remove event, which is ignored. -/
theorem event_filter_witness :
    ((loopStep envOk (Loader.Graphics { vertex := ["v"], fragment := ["f"] })
        { shutdownPending := false, recv := some (DebouncedEvent.Remove ["v"]) }
        { chan := { queue := [], receiverAlive := true }, stopped := false }).2
        = LoopEffect.reloaded
      ↔ isCreateOrWrite (some (DebouncedEvent.Remove ["v"])) = true)
  ∧ (isCreateOrWrite (some (DebouncedEvent.Remove ["v"])) = false →
      loopStep envOk (Loader.Graphics { vertex := ["v"], fragment := ["f"] })
        { shutdownPending := false, recv := some (DebouncedEvent.Remove ["v"]) }
        { chan := { queue := [], receiverAlive := true }, stopped := false }
        = ({ chan := { queue := [], receiverAlive := true }, stopped := false },
           LoopEffect.ignored))
  ∧ (∀ p, isCreateOrWrite (some (DebouncedEvent.Create p)) = true)
  ∧ (∀ p, isCreateOrWrite (some (DebouncedEvent.Write p)) = true)
  ∧ (∀ p, isCreateOrWrite (some (DebouncedEvent.NoticeWrite p)) = false)
  ∧ (∀ p, isCreateOrWrite (some (DebouncedEvent.NoticeRemove p)) = false)
  ∧ (∀ p, isCreateOrWrite (some (DebouncedEvent.Chmod p)) = false)
  ∧ (∀ p, isCreateOrWrite (some (DebouncedEvent.Remove p)) = false)
  ∧ (∀ p p2, isCreateOrWrite (some (DebouncedEvent.Rename p p2)) = false)
  ∧ isCreateOrWrite (some DebouncedEvent.Rescan) = false
  ∧ (∀ e p, isCreateOrWrite (some (DebouncedEvent.Error e p)) = false)
  ∧ isCreateOrWrite none = false :=
  event_filter envOk (Loader.Graphics { vertex := ["v"], fragment := ["f"] })
    { shutdownPending := false, recv := some (DebouncedEvent.Remove ["v"]) }
    { chan := { queue := [], receiverAlive := true }, stopped := false } rfl rfl

/-- C9: the loop never compares the event path with the watched file
paths: a Create or Write event for any path whatsoever (in particular
an unrelated file in a watched directory) triggers a reload, the
triggered step is identical for any two event paths, and with a live
receiver it enqueues a Reload Result. -/
theorem unrelated_path_triggers (env : Env) (l : Loader) (st : ThreadState) (p p2 : Path)
    (hstop : st.stopped = false) :
    loopStep env l { shutdownPending := false, recv := some (DebouncedEvent.Create p) } st
      = ({ st with chan := (l.reload env st.chan).1 }, LoopEffect.reloaded)
  ∧ loopStep env l { shutdownPending := false, recv := some (DebouncedEvent.Write p) } st
      = ({ st with chan := (l.reload env st.chan).1 }, LoopEffect.reloaded)
  ∧ loopStep env l { shutdownPending := false, recv := some (DebouncedEvent.Create p) } st
      = loopStep env l { shutdownPending := false, recv := some (DebouncedEvent.Create p2) } st
  ∧ (st.chan.receiverAlive = true →
      ((loopStep env l
          { shutdownPending := false, recv := some (DebouncedEvent.Create p) }
          st).1).chan.queue
        = st.chan.queue ++ [Loader.reloadResult env l]) := by
  refine ⟨?_, ?_, ?_, ?_⟩
  · unfold loopStep; simp [hstop, isCreateOrWrite]
  · unfold loopStep; simp [hstop, isCreateOrWrite]
  · unfold loopStep; simp [hstop, isCreateOrWrite]
  · intro halive
    unfold loopStep
    simp [hstop, isCreateOrWrite, loader_reload_alive env l st.chan halive]

/-- Witness for C9: an event for a path unrelated to the watched
vertex and fragment files. -/
theorem unrelated_path_triggers_witness :
    loopStep envOk (Loader.Graphics { vertex := ["d", "v.vert"], fragment := ["d", "f.frag"] })
        { shutdownPending := false, recv := some (DebouncedEvent.Create ["d", "unrelated.txt"]) }
        { chan := { queue := [], receiverAlive := true }, stopped := false }
      = ({ chan := { queue := [Except.ok { shaders := 7, entry := 8 }], receiverAlive := true },
           stopped := false }, LoopEffect.reloaded)
  ∧ loopStep envOk (Loader.Graphics { vertex := ["d", "v.vert"], fragment := ["d", "f.frag"] })
        { shutdownPending := false, recv := some (DebouncedEvent.Write ["d", "unrelated.txt"]) }
        { chan := { queue := [], receiverAlive := true }, stopped := false }
      = ({ chan := { queue := [Except.ok { shaders := 7, entry := 8 }], receiverAlive := true },
           stopped := false }, LoopEffect.reloaded)
  ∧ loopStep envOk (Loader.Graphics { vertex := ["d", "v.vert"], fragment := ["d", "f.frag"] })
        { shutdownPending := false, recv := some (DebouncedEvent.Create ["d", "unrelated.txt"]) }
        { chan := { queue := [], receiverAlive := true }, stopped := false }
      = loopStep envOk (Loader.Graphics { vertex := ["d", "v.vert"], fragment := ["d", "f.frag"] })
        { shutdownPending := false, recv := some (DebouncedEvent.Create ["elsewhere"]) }
        { chan := { queue := [], receiverAlive := true }, stopped := false }
  ∧ (true = true →
      ((loopStep envOk (Loader.Graphics { vertex := ["d", "v.vert"], fragment := ["d", "f.frag"] })
          { shutdownPending := false, recv := some (DebouncedEvent.Create ["d", "unrelated.txt"]) }
          { chan := { queue := [], receiverAlive := true }, stopped := false }).1).chan.queue
        = [Loader.reloadResult envOk
            (Loader.Graphics { vertex := ["d", "v.vert"], fragment := ["d", "f.frag"] })]) :=
  unrelated_path_triggers envOk
    (Loader.Graphics { vertex := ["d", "v.vert"], fragment := ["d", "f.frag"] })
    { chan := { queue := [], receiverAlive := true }, stopped := false }
    ["d", "unrelated.txt"] ["elsewhere"] rfl

/-- C5: dropping the handle sends the shutdown signal best-effort and
joins the thread with both fallible steps discarded by .ok(), so
teardown always completes normally; the loop polls the shutdown channel
at the top of every iteration, so in the first iteration that finds the
signal pending the thread exits immediately, without waiting or
reloading, and a stopped thread never acts again, whatever filesystem
events follow.  The per-iteration event wait is bounded by
recvTimeoutSecs = 1 second, which is therefore the worst-case shutdown
latency in waits. -/
theorem shutdown_teardown (handle : Option Unit) (sendResult : Except Unit Unit)
    (joinResult : Except Crash Unit) (env : Env) (l : Loader)
    (inp : LoopInput) (st : ThreadState) (inputs : List LoopInput)
    (hstop : st.stopped = false) (hsig : inp.shutdownPending = true) :
    exceptOk (Handler.drop handle sendResult joinResult) = true
  ∧ loopStep env l inp st = ({ st with stopped := true }, LoopEffect.exited)
  ∧ runLoop env l { st with stopped := true } inputs = { st with stopped := true }
  ∧ ((runLoop env l { st with stopped := true } inputs)).chan.queue = st.chan.queue
  ∧ recvTimeoutSecs = 1 := by
  refine ⟨?_, ?_, ?_, ?_, rfl⟩
  · cases handle <;> rfl
  · unfold loopStep; simp [hstop, hsig]
  · exact runLoop_stopped env l inputs _ rfl
  · rw [runLoop_stopped env l inputs _ rfl]

/-- Witness for C5: a failing send (thread already gone) and a failing
join, followed by further filesystem activity that the stopped thread
ignores. -/
theorem shutdown_teardown_witness :
    exceptOk (Handler.drop (some ()) (Except.error ()) (Except.error Crash.crashed)) = true
  ∧ loopStep envOk (Loader.Compute { compute := ["c.comp"] })
      { shutdownPending := true, recv := some (DebouncedEvent.Write ["c.comp"]) }
      { chan := { queue := [], receiverAlive := true }, stopped := false }
      = ({ chan := { queue := [], receiverAlive := true }, stopped := true },
         LoopEffect.exited)
  ∧ runLoop envOk (Loader.Compute { compute := ["c.comp"] })
      { chan := { queue := [], receiverAlive := true }, stopped := true }
      [{ shutdownPending := false, recv := some (DebouncedEvent.Write ["c.comp"]) }]
      = { chan := { queue := [], receiverAlive := true }, stopped := true }
  ∧ ((runLoop envOk (Loader.Compute { compute := ["c.comp"] })
      { chan := { queue := [], receiverAlive := true }, stopped := true }
      [{ shutdownPending := false, recv := some (DebouncedEvent.Write ["c.comp"]) }])).chan.queue
      = ([] : List (Except Error Message))
  ∧ recvTimeoutSecs = 1 :=
  shutdown_teardown (some ()) (Except.error ()) (Except.error Crash.crashed) envOk
    (Loader.Compute { compute := ["c.comp"] })
    { shutdownPending := true, recv := some (DebouncedEvent.Write ["c.comp"]) }
    { chan := { queue := [], receiverAlive := true }, stopped := false }
    [{ shutdownPending := false, recv := some (DebouncedEvent.Write ["c.comp"]) }]
    rfl rfl

theorem exceptOk_eq_true {ε α : Type} (x : Except ε α) :
    exceptOk x = true ↔ ∃ a, x = Except.ok a := by
  cases x <;> simp [exceptOk]

theorem exceptOk_eq_false {ε α : Type} (x : Except ε α) :
    exceptOk x = false ↔ ∃ e, x = Except.error e := by
  cases x <;> simp [exceptOk]

/-- Reading the watched directories off the canonical success trace
recovers exactly the watch set. -/
theorem watchDirs_canonical (l : List Path) :
    watchDirs ([Action.watcherNew] ++ l.map Action.watchDir
      ++ [Action.initialReload, Action.spawnThread]) = l := by
  induction l with
  | nil => rfl
  | cons d rest ih =>
    simpa [watchDirs, List.filterMap_cons] using ih

/-- Inversion of a failed create_watch: the error is a FileWatch error,
it arises from a failed watcher creation or a failed directory watch,
and the trace shows that no initial reload was performed and no
background thread was spawned. -/
theorem create_watch_err_inv (env : Env) (sp : SrcPath) (q : Nat)
    (tr : List Action) (err : Error)
    (h : create_watch env sp q = (tr, Except.error err)) :
    (∃ e, err = Error.FileWatch e)
    ∧ (exceptOk (env.watcherNew q) = false
        ∨ ∃ d ∈ directoryWatchSet sp, exceptOk (env.watch d) = false)
    ∧ Action.spawnThread ∉ tr ∧ Action.initialReload ∉ tr := by
  cases hwn : env.watcherNew q with
  | error e =>
    rw [create_watch_wNew_err env sp q e hwn] at h
    simp only [Prod.mk.injEq, Except.error.injEq] at h
    obtain ⟨htr, herr⟩ := h
    subst herr
    refine ⟨⟨e, rfl⟩, Or.inl rfl, ?_, ?_⟩ <;> rw [← htr] <;> simp
  | ok u =>
    have hw : exceptOk (env.watcherNew q) = true := by rw [hwn]; rfl
    cases sp with
    | Graphics v f =>
      cases hv : env.watch (Path.pop v) with
      | error e =>
        rw [create_watch_graphics_vp_err env v f q e hw hv] at h
        simp only [Prod.mk.injEq, Except.error.injEq] at h
        obtain ⟨htr, herr⟩ := h
        subst herr
        refine ⟨⟨e, rfl⟩, Or.inr ⟨Path.pop v, ?_, by rw [hv]; rfl⟩, ?_, ?_⟩
        · by_cases heq : Path.pop v = Path.pop f <;> simp [directoryWatchSet, heq]
        · rw [← htr]; simp
        · rw [← htr]; simp
      | ok u2 =>
        have hv2 : exceptOk (env.watch (Path.pop v)) = true := by rw [hv]; rfl
        by_cases heq : Path.pop v = Path.pop f
        · rw [create_watch_graphics_ok_one env v f q hw hv2 heq] at h
          simp at h
        · cases hf : env.watch (Path.pop f) with
          | error e =>
            rw [create_watch_graphics_fp_err env v f q e hw hv2 heq hf] at h
            simp only [Prod.mk.injEq, Except.error.injEq] at h
            obtain ⟨htr, herr⟩ := h
            subst herr
            refine ⟨⟨e, rfl⟩, Or.inr ⟨Path.pop f, ?_, by rw [hf]; rfl⟩, ?_, ?_⟩
            · simp [directoryWatchSet, heq]
            · rw [← htr]; simp
            · rw [← htr]; simp
          | ok u3 =>
            have hf2 : exceptOk (env.watch (Path.pop f)) = true := by rw [hf]; rfl
            rw [create_watch_graphics_ok_two env v f q hw hv2 heq hf2] at h
            simp at h
    | Compute c =>
      cases hc : env.watch (Path.pop c) with
      | error e =>
        rw [create_watch_compute_cp_err env c q e hw hc] at h
        simp only [Prod.mk.injEq, Except.error.injEq] at h
        obtain ⟨htr, herr⟩ := h
        subst herr
        refine ⟨⟨e, rfl⟩, Or.inr ⟨Path.pop c, by simp [directoryWatchSet], by rw [hc]; rfl⟩,
          ?_, ?_⟩ <;> rw [← htr] <;> simp
      | ok u2 =>
        have hc2 : exceptOk (env.watch (Path.pop c)) = true := by rw [hc]; rfl
        rw [create_watch_compute_ok env c q hw hc2] at h
        simp at h

/-- Conversely, a failing watcher creation or directory watch makes
create_watch fail. -/
theorem create_watch_fail_of_env (env : Env) (sp : SrcPath) (q : Nat)
    (h : exceptOk (env.watcherNew q) = false
      ∨ ∃ d ∈ directoryWatchSet sp, exceptOk (env.watch d) = false) :
    exceptOk (create_watch env sp q).2 = false := by
  cases hres : (create_watch env sp q).2 with
  | error e => rfl
  | ok se =>
    exfalso
    have hpair : create_watch env sp q = ((create_watch env sp q).1, Except.ok se) := by
      rw [← hres]
    obtain ⟨hw, hwd, _, _, _, _⟩ :=
      create_watch_ok_inv env sp q (create_watch env sp q).1 se hpair
    rcases h with h1 | ⟨d, hd, h2⟩
    · rw [hw] at h1; cases h1
    · rw [hwd d hd] at h2; cases h2

/-- C3: for every successful graphics construction, the installed
native subscriptions are exactly the Directory Watch Set: one
subscription when the vertex and fragment parents coincide, two when
they differ. -/
theorem graphics_watch_dedup (env : Env) (v f : Path) (q : Nat)
    (tr : List Action) (s : Session)
    (h : create_watch env (SrcPath.Graphics v f) q = (tr, Except.ok s)) :
    watchDirs tr = directoryWatchSet (SrcPath.Graphics v f)
  ∧ (Path.pop v = Path.pop f → (watchDirs tr).length = 1)
  ∧ (Path.pop v ≠ Path.pop f → (watchDirs tr).length = 2) := by
  obtain ⟨_, _, htr, _, _, _⟩ := create_watch_ok_inv env (SrcPath.Graphics v f) q tr s h
  have hwd : watchDirs tr = directoryWatchSet (SrcPath.Graphics v f) := by
    rw [htr, watchDirs_canonical]
  refine ⟨hwd, ?_, ?_⟩
  · intro heq
    rw [hwd]
    simp [directoryWatchSet, heq]
  · intro hne
    rw [hwd]
    simp [directoryWatchSet, hne]

/-- Witness for C3: vertex and fragment sharing the parent directory
a, yielding a single subscription. -/
theorem graphics_watch_dedup_witness :
    watchDirs [Action.watcherNew, Action.watchDir ["a"],
        Action.initialReload, Action.spawnThread]
      = directoryWatchSet (SrcPath.Graphics ["a", "v.vert"] ["a", "f.frag"])
  ∧ (Path.pop ["a", "v.vert"] = Path.pop ["a", "f.frag"] →
      (watchDirs [Action.watcherNew, Action.watchDir ["a"],
        Action.initialReload, Action.spawnThread]).length = 1)
  ∧ (Path.pop ["a", "v.vert"] ≠ Path.pop ["a", "f.frag"] →
      (watchDirs [Action.watcherNew, Action.watchDir ["a"],
        Action.initialReload, Action.spawnThread]).length = 2) :=
  graphics_watch_dedup envOk ["a", "v.vert"] ["a", "f.frag"] 1
    [Action.watcherNew, Action.watchDir ["a"], Action.initialReload, Action.spawnThread]
    { loader := Loader.Graphics { vertex := ["a", "v.vert"], fragment := ["a", "f.frag"] },
      chan := { queue := [Except.ok { shaders := 7, entry := 8 }], receiverAlive := true } }
    rfl

/-- C6: create_watch (hence create and create_compute) fails exactly
when the filesystem monitor cannot be created or a directory of the
watch set cannot be watched; every construction failure is an
Error::FileWatch; and on failure the trace shows no background thread
was spawned and no initial reload was performed, so no session exists. -/
theorem filewatch_error_exact (env : Env) (sp : SrcPath) (q : Nat) :
    (exceptOk (create_watch env sp q).2 = false ↔
      (exceptOk (env.watcherNew q) = false
        ∨ ∃ d ∈ directoryWatchSet sp, exceptOk (env.watch d) = false))
  ∧ (∀ err, (create_watch env sp q).2 = Except.error err → ∃ e, err = Error.FileWatch e)
  ∧ (exceptOk (create_watch env sp q).2 = false →
        Action.spawnThread ∉ (create_watch env sp q).1
      ∧ Action.initialReload ∉ (create_watch env sp q).1) := by
  refine ⟨⟨?_, ?_⟩, ?_, ?_⟩
  · intro hfail
    obtain ⟨err, herr⟩ := (exceptOk_eq_false _).1 hfail
    have hpair : create_watch env sp q = ((create_watch env sp q).1, Except.error err) := by
      rw [← herr]
    exact (create_watch_err_inv env sp q _ err hpair).2.1
  · exact create_watch_fail_of_env env sp q
  · intro err herr
    have hpair : create_watch env sp q = ((create_watch env sp q).1, Except.error err) := by
      rw [← herr]
    exact (create_watch_err_inv env sp q _ err hpair).1
  · intro hfail
    obtain ⟨err, herr⟩ := (exceptOk_eq_false _).1 hfail
    have hpair : create_watch env sp q = ((create_watch env sp q).1, Except.error err) := by
      rw [← herr]
    exact ⟨(create_watch_err_inv env sp q _ err hpair).2.2.1,
           (create_watch_err_inv env sp q _ err hpair).2.2.2⟩

/-- Environment whose directory watch always fails, witnessing the
construction-failure claims. -/
def envWatchFail : Env where
  watcherNew := fun _ => Except.ok ()
  watch := fun _ => Except.error 9
  load := fun _ _ => Except.ok 7
  parse := fun sh => Except.ok (sh + 1)
  loadCompute := fun _ => Except.ok 5
  parseCompute := fun sh => Except.ok (sh + 2)

/-- Witness for C6: a compute construction against a directory that
cannot be watched. -/
theorem filewatch_error_exact_witness :
    (exceptOk (create_watch envWatchFail (SrcPath.Compute ["dir", "s.comp"]) 1).2 = false ↔
      (exceptOk (envWatchFail.watcherNew 1) = false
        ∨ ∃ d ∈ directoryWatchSet (SrcPath.Compute ["dir", "s.comp"]),
            exceptOk (envWatchFail.watch d) = false))
  ∧ (∀ err, (create_watch envWatchFail (SrcPath.Compute ["dir", "s.comp"]) 1).2
        = Except.error err → ∃ e, err = Error.FileWatch e)
  ∧ (exceptOk (create_watch envWatchFail (SrcPath.Compute ["dir", "s.comp"]) 1).2 = false →
        Action.spawnThread ∉ (create_watch envWatchFail (SrcPath.Compute ["dir", "s.comp"]) 1).1
      ∧ Action.initialReload ∉ (create_watch envWatchFail (SrcPath.Compute ["dir", "s.comp"]) 1).1) :=
  filewatch_error_exact envWatchFail (SrcPath.Compute ["dir", "s.comp"]) 1

/-- C10: for every successful construction, every directory registered
with the native watcher is some input path with its last component
removed (PathBuf::pop), every input path contributes its popped parent,
pop is exactly drop-last, and popping a bare one-component filename
yields the empty path, which differs from the current-directory path. -/
theorem registered_dirs_are_pops (env : Env) (sp : SrcPath) (q : Nat)
    (tr : List Action) (s : Session)
    (h : create_watch env sp q = (tr, Except.ok s)) :
    (∀ d, d ∈ watchDirs tr → ∃ p2, p2 ∈ srcPathList sp ∧ d = Path.pop p2)
  ∧ (∀ p2, p2 ∈ srcPathList sp → Path.pop p2 ∈ watchDirs tr)
  ∧ (∀ p2 : Path, Path.pop p2 = p2.dropLast)
  ∧ (∀ name : String, Path.pop [name] = ([] : Path))
  ∧ ([] : Path) ≠ currentDirPath := by
  obtain ⟨_, _, htr, _, _, _⟩ := create_watch_ok_inv env sp q tr s h
  have hwd : watchDirs tr = directoryWatchSet sp := by
    rw [htr, watchDirs_canonical]
  refine ⟨?_, ?_, fun p2 => rfl, fun name => rfl, ?_⟩
  · intro d hd
    rw [hwd] at hd
    cases sp with
    | Graphics v f =>
      by_cases heq : Path.pop v = Path.pop f
      · simp [directoryWatchSet, heq] at hd
        exact ⟨f, by simp [srcPathList], hd⟩
      · simp [directoryWatchSet, heq] at hd
        rcases hd with hd | hd
        · exact ⟨v, by simp [srcPathList], hd⟩
        · exact ⟨f, by simp [srcPathList], hd⟩
    | Compute c =>
      simp [directoryWatchSet] at hd
      exact ⟨c, by simp [srcPathList], hd⟩
  · intro p2 hp2
    rw [hwd]
    cases sp with
    | Graphics v f =>
      simp [srcPathList] at hp2
      by_cases heq : Path.pop v = Path.pop f
      · rcases hp2 with hp2 | hp2 <;> subst hp2 <;> simp [directoryWatchSet, heq]
      · rcases hp2 with hp2 | hp2 <;> subst hp2 <;> simp [directoryWatchSet, heq]
    | Compute c =>
      simp [srcPathList] at hp2
      subst hp2
      simp [directoryWatchSet]
  · intro hcontra
    simp [currentDirPath] at hcontra

/-- Witness for C10: a bare one-component compute filename, whose
watched directory is the empty path. -/
theorem registered_dirs_are_pops_witness :
    (∀ d, d ∈ watchDirs [Action.watcherNew, Action.watchDir ([] : Path),
          Action.initialReload, Action.spawnThread] →
        ∃ p2, p2 ∈ srcPathList (SrcPath.Compute ["shader.comp"]) ∧ d = Path.pop p2)
  ∧ (∀ p2, p2 ∈ srcPathList (SrcPath.Compute ["shader.comp"]) →
        Path.pop p2 ∈ watchDirs [Action.watcherNew, Action.watchDir ([] : Path),
          Action.initialReload, Action.spawnThread])
  ∧ (∀ p2 : Path, Path.pop p2 = p2.dropLast)
  ∧ (∀ name : String, Path.pop [name] = ([] : Path))
  ∧ ([] : Path) ≠ currentDirPath :=
  registered_dirs_are_pops envOk (SrcPath.Compute ["shader.comp"]) 1
    [Action.watcherNew, Action.watchDir ([] : Path),
     Action.initialReload, Action.spawnThread]
    { loader := Loader.Compute { compute := ["shader.comp"] },
      chan := { queue := [Except.ok { shaders := 5, entry := 7 }], receiverAlive := true } }
    rfl

/-- Environment modelling a filesystem where the watched shader files
do not exist but their parent directories do: the native monitor and
the directory watches succeed, while the external compile step fails
with its file-read error, exactly as crate::load does on a missing
file. -/
def envMissingFile : Env where
  watcherNew := fun _ => Except.ok ()
  watch := fun _ => Except.ok ()
  load := fun _ _ => Except.error (Error.CompileError 2)
  parse := fun sh => Except.ok sh
  loadCompute := fun _ => Except.error (Error.CompileError 2)
  parseCompute := fun sh => Except.ok sh

/-- Counterexample to C8 as stated: with the watched files missing
(the external load reports its file-read error) but the parent
directory watchable, construction does NOT fail — create_watch returns
Ok for both the graphics and the compute variant, and the file-read
error never reaches the constructor's return value. -/
theorem missing_file_construction_succeeds :
    envMissingFile.load ["shaders", "missing.vert"] ["shaders", "missing.frag"]
      = Except.error (Error.CompileError 2)
  ∧ envMissingFile.loadCompute ["shaders", "missing.comp"]
      = Except.error (Error.CompileError 2)
  ∧ exceptOk (create_watch envMissingFile
      (SrcPath.Graphics ["shaders", "missing.vert"] ["shaders", "missing.frag"]) 1).2 = true
  ∧ exceptOk (create_watch envMissingFile
      (SrcPath.Compute ["shaders", "missing.comp"]) 1).2 = true :=
  ⟨rfl, rfl, rfl, rfl⟩

/-- C8 amended: construction with a path that refers to no existing
file still succeeds whenever the monitor can be created and the parent
directories watched; the external compile step's file-read error is
surfaced as the initial (first) Reload Result on the channel, an Err
value, rather than as a construction failure. -/
theorem missing_file_error_on_channel (env : Env) (v f c : Path) (q : Nat) (e e2 : Error)
    (hw : exceptOk (env.watcherNew q) = true)
    (hall : ∀ d, exceptOk (env.watch d) = true)
    (hload : env.load v f = Except.error e)
    (hloadc : env.loadCompute c = Except.error e2) :
    (∃ tr s, create_watch env (SrcPath.Graphics v f) q = (tr, Except.ok s)
        ∧ s.chan.queue = [Except.error e])
  ∧ (∃ tr s, create_watch env (SrcPath.Compute c) q = (tr, Except.ok s)
        ∧ s.chan.queue = [Except.error e2]) := by
  constructor
  · by_cases heq : Path.pop v = Path.pop f
    · refine ⟨_, _, create_watch_graphics_ok_one env v f q hw (hall _) heq, ?_⟩
      show ((GraphicsLoader.reload env { vertex := v, fragment := f }
        { queue := [], receiverAlive := true }).1).queue = [Except.error e]
      rw [graphics_reload_alive env _ _ rfl]
      simp [GraphicsLoader.reloadResult, hload]
    · refine ⟨_, _, create_watch_graphics_ok_two env v f q hw (hall _) heq (hall _), ?_⟩
      show ((GraphicsLoader.reload env { vertex := v, fragment := f }
        { queue := [], receiverAlive := true }).1).queue = [Except.error e]
      rw [graphics_reload_alive env _ _ rfl]
      simp [GraphicsLoader.reloadResult, hload]
  · refine ⟨_, _, create_watch_compute_ok env c q hw (hall _), ?_⟩
    show ((ComputeLoader.reload env { compute := c }
      { queue := [], receiverAlive := true }).1).queue = [Except.error e2]
    rw [compute_reload_alive env _ _ rfl]
    simp [ComputeLoader.reloadResult, hloadc]

/-- Witness for the amended C8 in the missing-file environment. -/
theorem missing_file_error_on_channel_witness :
    (∃ tr s, create_watch envMissingFile
        (SrcPath.Graphics ["shaders", "missing.vert"] ["shaders", "missing.frag"]) 1
        = (tr, Except.ok s)
      ∧ s.chan.queue = [Except.error (Error.CompileError 2)])
  ∧ (∃ tr s, create_watch envMissingFile
        (SrcPath.Compute ["shaders", "missing.comp"]) 1 = (tr, Except.ok s)
      ∧ s.chan.queue = [Except.error (Error.CompileError 2)]) :=
  missing_file_error_on_channel envMissingFile
    ["shaders", "missing.vert"] ["shaders", "missing.frag"] ["shaders", "missing.comp"]
    1 (Error.CompileError 2) (Error.CompileError 2)
    rfl (fun _ => rfl) rfl rfl

end ShadeRunner
